import Mathlib

/-!
Verification development for the `devops-test` CDK repository.

The repository declares an AWS CDK infrastructure stack
(`src/cdk/stacks/infrastructure_stack.py`) and a CI/CD pipeline stack
(`src/cdk/stacks/pipeline_stack.py`).  The interesting program logic is:

* the task-definition migration script embedded in the deploy buildspec
  (`pipeline_stack.py`, line 256): a Python one-liner that loads the
  current task-definition JSON, overwrites the image of container entry 0,
  pops eight provider-assigned metadata keys, and dumps the result;
* the deploy buildspec's command sequence (lines 250-263): describe the
  service, describe the task definition, run the migration script,
  register the new task definition, update the service, wait for
  stability — the rollout sequencer;
* the build buildspec's tag computation and pushes (lines 84-86, 102-103)
  and the image-definitions manifest it writes (line 105);
* the environment-configuration lookup with a `dev` fallback
  (`infrastructure_stack.py` line 27, `pipeline_stack.py` line 27);
* the ALB security-group ingress rules (`infrastructure_stack.py`,
  lines 155-166) and the autoscaling bounds (lines 217-220).

These are embedded shallowly below: JSON documents become an inductive
`JVal`, Python dicts become association lists with Python's
insertion-order-preserving assignment/pop semantics, CLI invocations in
the buildspec become an abstract command list, and shell string
operations become `List Char` functions.
-/

/-- A JSON value, as produced by Python's `json.load`.  Objects are
insertion-ordered association lists, matching Python dict semantics. -/
inductive JVal where
  | str : String → JVal
  | num : Int → JVal
  | bool : Bool → JVal
  | null : JVal
  | arr : List JVal → JVal
  | obj : List (String × JVal) → JVal

/-- Lookup of a key in an association list, first match wins.  Models
Python dict indexing `d[k]` (which returns the unique binding; on the
association lists built by `json.load` keys are unique). -/
def alookup {α : Type} : List (String × α) → String → Option α
  | [], _ => none
  | (k, v) :: rest, key => if k = key then some v else alookup rest key

/-- Assignment `d[k] = v` on a Python dict: replaces the value of an
existing key in place (insertion order preserved), appends the binding
otherwise. -/
def setKey : List (String × JVal) → String → JVal → List (String × JVal)
  | [], key, v => [(key, v)]
  | (k, w) :: rest, key, v =>
      if k = key then (k, v) :: rest else (k, w) :: setKey rest key v

/-- Removal `d.pop(k, None)` on a Python dict: drops the binding for `k`
if present, leaves the dict unchanged otherwise. -/
def popKey : List (String × JVal) → String → List (String × JVal)
  | [], _ => []
  | (k, v) :: rest, key =>
      if k = key then popKey rest key else (k, v) :: popKey rest key

/-- Sequential pops, modelling the list comprehension
`[td.pop(k, None) for k in [...]]` in the migration script. -/
def popKeys (fields : List (String × JVal)) (keys : List String) :
    List (String × JVal) :=
  keys.foldl popKey fields

/-- The eight provider-assigned metadata keys popped by the migration
script (`pipeline_stack.py`, line 256), in source order. -/
def metadataKeys : List String :=
  ["taskDefinitionArn", "revision", "status", "requiresAttributes",
   "placementConstraints", "compatibilities", "registeredAt", "registeredBy"]

/-- Errors the migration script can raise: `KeyError` from
`td['containerDefinitions']` on a dict without that key, `IndexError`
from `[0]` on an empty list, `TypeError` from indexing or assigning into
a value of the wrong shape. -/
inductive MigrateError where
  | keyError : MigrateError
  | indexError : MigrateError
  | typeError : MigrateError

/-- Core of the migration script on an already-destructured top-level
object: `td['containerDefinitions'][0]['image'] = imageUri` followed by
popping the metadata keys.  Note that the script selects container entry
0 unconditionally; no container name is consulted. -/
def migrateFields (fields : List (String × JVal)) (imageUri : String) :
    Except MigrateError JVal :=
  match alookup fields "containerDefinitions" with
  | none => .error .keyError
  | some (.arr []) => .error .indexError
  | some (.arr (.obj cf :: rest)) =>
      .ok (.obj (popKeys
        (setKey fields "containerDefinitions"
          (.arr (.obj (setKey cf "image" (.str imageUri)) :: rest)))
        metadataKeys))
  | some (.arr (_ :: _)) => .error .typeError
  | some _ => .error .typeError

/-- The task-definition migration script embedded in the deploy buildspec
(`pipeline_stack.py`, line 256):
`td=json.load(open('task-def.json'));`
`td['containerDefinitions'][0]['image']='$IMAGE_URI';`
`[td.pop(k, None) for k in [...]]; json.dump(td, ...)`. -/
def migrate : JVal → String → Except MigrateError JVal
  | .obj fields, imageUri => migrateFields fields imageUri
  | _, _ => .error .typeError

/-- Top-level key lookup on a JSON value (none on non-objects). -/
def jvalLookup (td : JVal) (k : String) : Option JVal :=
  match td with
  | .obj fields => alookup fields k
  | _ => none

/-- The container list of a task-definition document, when present. -/
def containersOf (td : JVal) : Option (List JVal) :=
  match jvalLookup td "containerDefinitions" with
  | some (.arr l) => some l
  | _ => none

/-- The string image of a single container entry, when present. -/
def imageStrOf (c : JVal) : Option String :=
  match c with
  | .obj cf =>
      match alookup cf "image" with
      | some (.str s) => some s
      | _ => none
  | _ => none

/-- The string image of the first container entry of a document. -/
def firstContainerImageStr (td : JVal) : Option String :=
  match containersOf td with
  | some (c :: _) => imageStrOf c
  | _ => none

/-- The string images of all container entries of a document. -/
def containerImageStrs (td : JVal) : List (Option String) :=
  match containersOf td with
  | some l => l.map imageStrOf
  | none => []

/-- Whether some container entry of the document is named `n` — the
lookup condition the specification's `LookupFailure` clause is about. -/
def hasContainerNamed (td : JVal) (n : String) : Bool :=
  match containersOf td with
  | some l => l.any fun c =>
      match c with
      | .obj cf =>
          match alookup cf "name" with
          | some (.str s) => s == n
          | _ => false
      | _ => false
  | none => false

/-- Whether the migration script succeeds on the given document. -/
def migrateOk (td : JVal) (u : String) : Bool :=
  match migrate td u with
  | .ok _ => true
  | .error _ => false

/-- The first container image of the migration script's output, when the
script succeeds. -/
def migrateResultImage (td : JVal) (u : String) : Option String :=
  match migrate td u with
  | .ok out => firstContainerImageStr out
  | .error _ => none

/-- The container images of the migration script's output, when the
script succeeds. -/
def migrateImages (td : JVal) (u : String) : List (Option String) :=
  match migrate td u with
  | .ok out => containerImageStrs out
  | .error _ => []

/-- A resolved per-environment configuration entry, with the fields the
two stacks read from `environments.json`: `branch`, `container_name`,
`service_name`, `cluster_name`, `cpu`, `memory`, `desired_count`,
`app_env`. -/
structure EnvConfig where
  branch : String
  container_name : String
  service_name : String
  cluster_name : String
  cpu : Nat
  memory : Nat
  desired_count : Nat
  app_env : String
deriving DecidableEq

/-- Errors of the configuration lookup: `KeyError` from
`self.env_configs["dev"]` when the mapping has no `dev` entry. -/
inductive ConfigError where
  | keyError : ConfigError
deriving DecidableEq

/-- Lookup of a key in a configuration mapping, first match wins
(Python dict semantics on unique keys). -/
def cfgLookup : List (String × EnvConfig) → String → Option EnvConfig
  | [], _ => none
  | (k, v) :: rest, key => if k = key then some v else cfgLookup rest key

/-- Configuration resolution
`self.env_configs.get(env_name, self.env_configs["dev"])`
(`infrastructure_stack.py` line 27 and `pipeline_stack.py` line 27).
Python evaluates the default argument eagerly, so the `dev` entry is
looked up — and its absence raises `KeyError` — before `get` runs. -/
def resolveConfig (configs : List (String × EnvConfig)) (envName : String) :
    Except ConfigError EnvConfig :=
  match cfgLookup configs "dev" with
  | none => .error .keyError
  | some devCfg => .ok ((cfgLookup configs envName).getD devCfg)

/-- The image-definitions manifest written by the build buildspec
(`pipeline_stack.py`, line 105): a printf of a one-element JSON array
holding one object with the keys `name` (the configured container name)
and `imageUri` (the pushed reference), modelled at the JSON-value
level. -/
def writeImageDefinitions (containerName imageUri : String) : JVal :=
  .arr [.obj [("name", .str containerName), ("imageUri", .str imageUri)]]

/-- The manifest read performed by the test and deploy buildspecs
(`pipeline_stack.py`, lines 163 and 244):
`json.load(sys.stdin)[0]['imageUri']`. -/
def readManifestImageUri (m : JVal) : Option String :=
  match m with
  | .arr (first :: _) =>
      match first with
      | .obj fs =>
          match alookup fs "imageUri" with
          | some (.str s) => some s
          | _ => none
      | _ => none
  | _ => none

/-- The same JSON access applied to the manifest's `name` key:
`json.load(...)[0]['name']`. -/
def readManifestName (m : JVal) : Option String :=
  match m with
  | .arr (first :: _) =>
      match first with
      | .obj fs =>
          match alookup fs "name" with
          | some (.str s) => some s
          | _ => none
      | _ => none
  | _ => none

/-- Number of entries in a manifest value (0 on a non-array). -/
def manifestEntryCount (m : JVal) : Nat :=
  match m with
  | .arr l => l.length
  | _ => 0

/-- Keys of the first manifest entry, in order. -/
def manifestKeys (m : JVal) : Option (List String) :=
  match m with
  | .arr (.obj fs :: _) => some (fs.map Prod.fst)
  | _ => none

/-- The tag `"latest"` as a character list. -/
def latestTag : List Char := "latest".toList

/-- The image-tag computation of the build buildspec
(`pipeline_stack.py`, lines 85-86):
`COMMIT_HASH=$(echo $CODEBUILD_RESOLVED_SOURCE_VERSION | cut -c 1-7)`
truncates the resolved source version to its first seven characters, and
`IMAGE_TAG=$\x7bCOMMIT_HASH:=latest\x7d` substitutes `latest` exactly
when that truncation is empty, i.e. when the source version is empty. -/
def imageTag (sourceVersion : List Char) : List Char :=
  if sourceVersion = [] then latestTag else sourceVersion.take 7

/-- The tags pushed by the build buildspec (`pipeline_stack.py`, lines
102-103): `docker push $REPOSITORY_URI:$IMAGE_TAG` then
`docker push $REPOSITORY_URI:latest`. -/
def pushedTags (sourceVersion : List Char) : List (List Char) :=
  [imageTag sourceVersion, latestTag]

/-- One ingress rule added to a security group:
(peer, TCP port, description). -/
structure IngressRule where
  peer : String
  port : Nat
  description : String
deriving DecidableEq

/-- The ingress rules added to the ALB security group
(`infrastructure_stack.py`, lines 155-166): HTTP on TCP 80 from any
IPv4 peer unconditionally, and HTTPS on TCP 443 only when
`self.env_name == "prod"`. -/
def albIngressRules (envName : String) : List IngressRule :=
  [⟨"any_ipv4", 80, "Allow HTTP traffic"⟩] ++
    (if envName = "prod"
      then [⟨"any_ipv4", 443, "Allow HTTPS traffic"⟩]
      else [])

/-- The autoscaling bounds passed to `auto_scale_task_count`
(`infrastructure_stack.py`, lines 217-220):
`min_capacity=config["desired_count"]`,
`max_capacity=config["desired_count"] * 3`. -/
def autoScaleBounds (config : EnvConfig) : Nat × Nat :=
  (config.desired_count, config.desired_count * 3)

/-- The commands of the deploy buildspec's `build` phase
(`pipeline_stack.py`, lines 250-263), abstracted: `echoMsg` for the echo
commands, and one constructor per AWS CLI call or embedded script. -/
inductive DeployCmd where
  | echoMsg : DeployCmd
  | describeServices : DeployCmd
  | describeTaskDefinition : DeployCmd
  | runMigrateScript : DeployCmd
  | registerTaskDefinition : DeployCmd
  | updateService : DeployCmd
  | waitServicesStable : DeployCmd
deriving DecidableEq

/-- The deploy buildspec's `build` phase command list in source order
(`pipeline_stack.py`, lines 250-263): echo, echo, `aws ecs
describe-services`, echo, echo, `aws ecs describe-task-definition`, the
migration script, echo, `aws ecs register-task-definition`, echo, echo,
`aws ecs update-service`, echo, `aws ecs wait services-stable`. -/
def deployBuildCommands : List DeployCmd :=
  [.echoMsg, .echoMsg, .describeServices, .echoMsg, .echoMsg,
   .describeTaskDefinition, .runMigrateScript, .echoMsg,
   .registerTaskDefinition, .echoMsg, .echoMsg, .updateService,
   .echoMsg, .waitServicesStable]

/-- States of the rollout sequencer, as in the specification's state
machine: `Idle → Registering → Updating → WaitingForStable →
(Stable or Failed)`. -/
inductive SeqState where
  | idle : SeqState
  | registering : SeqState
  | updating : SeqState
  | waitingForStable : SeqState
  | stable : SeqState
  | failed : SeqState
deriving DecidableEq

/-- Sequencer states entered by executing one deploy command:
`register-task-definition` enters `Registering`, `update-service` enters
`Updating`, `wait services-stable` enters `WaitingForStable` and then
resolves to `Stable` or `Failed` according to the wait's outcome; echo
and read-only describe commands and the in-memory migration script do
not move the sequencer. -/
def enteredStates (ok : Bool) : DeployCmd → List SeqState
  | .registerTaskDefinition => [.registering]
  | .updateService => [.updating]
  | .waitServicesStable => [.waitingForStable, cond ok .stable .failed]
  | _ => []

/-- The sequencer state trace of a deploy command list, executed
sequentially from `Idle`, with the wait resolving to `ok`. -/
def seqTrace (cmds : List DeployCmd) (ok : Bool) : List SeqState :=
  SeqState.idle :: cmds.flatMap (enteredStates ok)

/-! Shared lemmas about the dict operations and the migration script. -/

theorem alookup_setKey_self (fs : List (String × JVal)) (k : String) (v : JVal) :
    alookup (setKey fs k v) k = some v := by
  induction fs with
  | nil => simp [setKey, alookup]
  | cons p rest ih =>
      obtain ⟨k0, w⟩ := p
      by_cases h : k0 = k
      · simp [setKey, h, alookup]
      · simp [setKey, h, alookup, ih]

theorem alookup_setKey_ne (fs : List (String × JVal)) (k k' : String) (v : JVal)
    (h : k' ≠ k) : alookup (setKey fs k v) k' = alookup fs k' := by
  have hkk : ¬(k = k') := fun hh => h hh.symm
  induction fs with
  | nil => simp [setKey, alookup, hkk]
  | cons p rest ih =>
      obtain ⟨k0, w⟩ := p
      by_cases h0 : k0 = k
      · subst h0
        simp [setKey, alookup, hkk]
      · by_cases h1 : k0 = k'
        · subst h1
          simp [setKey, h0, alookup]
        · simp [setKey, h0, alookup, h1, ih]

theorem alookup_popKey_self (fs : List (String × JVal)) (k : String) :
    alookup (popKey fs k) k = none := by
  induction fs with
  | nil => simp [popKey, alookup]
  | cons p rest ih =>
      obtain ⟨k0, w⟩ := p
      by_cases h : k0 = k
      · simp [popKey, h, ih]
      · simp [popKey, h, alookup, ih]

theorem alookup_popKey_ne (fs : List (String × JVal)) (k k' : String)
    (h : k' ≠ k) : alookup (popKey fs k) k' = alookup fs k' := by
  have hkk : ¬(k = k') := fun hh => h hh.symm
  induction fs with
  | nil => simp [popKey]
  | cons p rest ih =>
      obtain ⟨k0, w⟩ := p
      by_cases h0 : k0 = k
      · subst h0
        simp [popKey, alookup, hkk, ih]
      · by_cases h1 : k0 = k'
        · subst h1
          simp [popKey, h0, alookup]
        · simp [popKey, h0, alookup, h1, ih]

theorem alookup_popKey_of_none (fs : List (String × JVal)) (k k0 : String)
    (h : alookup fs k = none) : alookup (popKey fs k0) k = none := by
  by_cases hk : k = k0
  · subst hk; exact alookup_popKey_self fs k
  · rw [alookup_popKey_ne fs k0 k hk]; exact h

theorem alookup_popKeys_of_none (fs : List (String × JVal)) (keys : List String)
    (k : String) (h : alookup fs k = none) :
    alookup (popKeys fs keys) k = none := by
  induction keys generalizing fs with
  | nil => exact h
  | cons k0 ks ih =>
      show alookup (popKeys (popKey fs k0) ks) k = none
      exact ih (popKey fs k0) (alookup_popKey_of_none fs k k0 h)

theorem alookup_popKeys_mem (fs : List (String × JVal)) (keys : List String)
    (k : String) : k ∈ keys → alookup (popKeys fs keys) k = none := by
  induction keys generalizing fs with
  | nil => intro h; cases h
  | cons k0 ks ih =>
      intro h
      show alookup (popKeys (popKey fs k0) ks) k = none
      rcases List.mem_cons.mp h with h0 | h0
      · subst h0
        exact alookup_popKeys_of_none _ ks k (alookup_popKey_self fs k)
      · exact ih (popKey fs k0) h0

theorem alookup_popKeys_not_mem (fs : List (String × JVal)) (keys : List String)
    (k : String) : k ∉ keys → alookup (popKeys fs keys) k = alookup fs k := by
  induction keys generalizing fs with
  | nil => intro _; rfl
  | cons k0 ks ih =>
      intro h
      show alookup (popKeys (popKey fs k0) ks) k = alookup fs k
      have hne : k ≠ k0 := fun hh => h (hh ▸ List.mem_cons_self k0 ks)
      rw [ih (popKey fs k0) (fun hh => h (List.mem_cons_of_mem k0 hh)),
        alookup_popKey_ne fs k0 k hne]

/-- Unfolding equation of the migration script on a well-shaped
document: the top-level value is an object, its `containerDefinitions`
key holds an array whose first element is an object. -/
theorem migrate_obj_ok (fields : List (String × JVal))
    (cf : List (String × JVal)) (rest : List JVal) (u : String)
    (h : alookup fields "containerDefinitions" =
      some (.arr (.obj cf :: rest))) :
    migrate (.obj fields) u =
      .ok (.obj (popKeys
        (setKey fields "containerDefinitions"
          (.arr (.obj (setKey cf "image" (.str u)) :: rest)))
        metadataKeys)) := by
  show migrateFields fields u = _
  unfold migrateFields
  rw [h]

/-- Inversion: a successful run of the migration script came from a
well-shaped document and produced exactly the set-then-pop result. -/
theorem migrate_ok_shape (td : JVal) (u : String) (out : JVal)
    (h : migrate td u = .ok out) :
    ∃ fields cf rest,
      td = .obj fields ∧
      alookup fields "containerDefinitions" = some (.arr (.obj cf :: rest)) ∧
      out = .obj (popKeys
        (setKey fields "containerDefinitions"
          (.arr (.obj (setKey cf "image" (.str u)) :: rest)))
        metadataKeys) := by
  cases td with
  | obj fields =>
      refine ⟨fields, ?_⟩
      have h' : migrateFields fields u = .ok out := h
      unfold migrateFields at h'
      cases hcd : alookup fields "containerDefinitions" with
      | none => rw [hcd] at h'; cases h'
      | some v =>
          rw [hcd] at h'
          cases v with
          | arr l =>
              cases l with
              | nil => cases h'
              | cons c0 rest =>
                  cases c0 with
                  | obj cf =>
                      cases h'
                      exact ⟨cf, rest, rfl, rfl, rfl⟩
                  | str s => cases h'
                  | num n => cases h'
                  | bool b => cases h'
                  | null => cases h'
                  | arr l2 => cases h'
          | str s => cases h'
          | num n => cases h'
          | bool b => cases h'
          | null => cases h'
          | obj fs2 => cases h'
  | str s => cases h
  | num n => cases h
  | bool b => cases h
  | null => cases h
  | arr l => cases h

/-- The key `containerDefinitions` is not among the popped metadata
keys. -/
theorem containerDefinitions_not_metadata :
    "containerDefinitions" ∉ metadataKeys := by decide

/-- A successful run of the migration script leaves the container list
in place: its first entry is the input's first entry with the image
overwritten, and the remaining entries are the input's, verbatim. -/
theorem migrate_ok_containers (td : JVal) (u : String) (out : JVal)
    (h : migrate td u = .ok out) :
    ∃ cf rest,
      containersOf td = some (.obj cf :: rest) ∧
      containersOf out = some (.obj (setKey cf "image" (.str u)) :: rest) := by
  obtain ⟨fields, cf, rest, htd, hcd, hout⟩ := migrate_ok_shape td u out h
  refine ⟨cf, rest, by rw [htd]; simp [containersOf, jvalLookup, hcd], ?_⟩
  rw [hout]
  simp only [containersOf, jvalLookup]
  rw [alookup_popKeys_not_mem _ _ _ containerDefinitions_not_metadata,
    alookup_setKey_self]

/-- After a successful run of the migration script, the first container
entry's image is the new reference. -/
theorem migrate_ok_firstImage (td : JVal) (u : String) (out : JVal)
    (h : migrate td u = .ok out) :
    firstContainerImageStr out = some u := by
  obtain ⟨cf, rest, _, hc⟩ := migrate_ok_containers td u out h
  simp only [firstContainerImageStr, hc, imageStrOf, alookup_setKey_self]

/-! Concrete documents used to exercise the migration script: the input
of the specification's Scenarios A and B, a two-container variant, and
the computed outputs. -/

/-- Top-level fields of the Scenario A / Scenario B input document. -/
def scenarioFields : List (String × JVal) :=
  [("containerDefinitions",
      .arr [.obj [("name", .str "app"), ("image", .str "old:1")]]),
   ("taskDefinitionArn", .str "arn:1"),
   ("revision", .num 1)]

/-- The Scenario A / Scenario B input document. -/
def scenarioDoc : JVal := .obj scenarioFields

/-- The migration script's output on `scenarioDoc` with new image
`repo:abc1234`. -/
def scenarioOut : JVal :=
  .obj [("containerDefinitions",
    .arr [.obj [("name", .str "app"), ("image", .str "repo:abc1234")]])]

/-- A document with two container entries, the second of which already
carries the new image reference. -/
def twoContainerFields : List (String × JVal) :=
  [("containerDefinitions",
      .arr [.obj [("name", .str "app"), ("image", .str "old:1")],
            .obj [("name", .str "web"), ("image", .str "repo:abc1234")]])]

/-- The two-container document as a JSON value. -/
def twoContainerDoc : JVal := .obj twoContainerFields

/-- C1 (counterexample): on the Scenario B input — whose only container
entry is named `app`, so no entry is named `missing` — the migration
script succeeds instead of signalling a lookup failure: it never
consults any container name. -/
theorem migrate_no_lookup_failure_cex :
    hasContainerNamed scenarioDoc "missing" = false
    ∧ migrateOk scenarioDoc "repo:abc1234" = true := by
  exact ⟨by decide, by decide⟩

/-- C1 (amended): the migration script substitutes the new image into
the first container entry regardless of any container name; it fails
with a `KeyError` when the document has no `containerDefinitions` key
and with an `IndexError` when the container list is empty. -/
theorem migrate_first_entry_spec :
    ∀ (fields : List (String × JVal)) (u : String),
      (alookup fields "containerDefinitions" = none →
        migrate (.obj fields) u = .error .keyError)
      ∧ (alookup fields "containerDefinitions" = some (.arr []) →
        migrate (.obj fields) u = .error .indexError)
      ∧ (∀ cf rest,
          alookup fields "containerDefinitions" =
            some (.arr (.obj cf :: rest)) →
          migrateOk (.obj fields) u = true
          ∧ migrateResultImage (.obj fields) u = some u) := by
  intro fields u
  refine ⟨?_, ?_, ?_⟩
  · intro h
    show migrateFields fields u = _
    unfold migrateFields
    rw [h]
  · intro h
    show migrateFields fields u = _
    unfold migrateFields
    rw [h]
  · intro cf rest h
    have heq := migrate_obj_ok fields cf rest u h
    constructor
    · simp [migrateOk, heq]
    · simp only [migrateResultImage, heq]
      exact migrate_ok_firstImage _ u _ heq

/-- Witness for the amended C1, at the concrete inputs of the three
branches. -/
theorem migrate_first_entry_spec_witness :
    migrate (.obj []) "repo:abc1234" = .error .keyError
    ∧ migrate (.obj [("containerDefinitions", .arr [])]) "repo:abc1234" =
        .error .indexError
    ∧ migrateOk scenarioDoc "repo:abc1234" = true
    ∧ migrateResultImage scenarioDoc "repo:abc1234" = some "repo:abc1234" := by
  obtain ⟨h1, h2⟩ :=
    (migrate_first_entry_spec scenarioFields "repo:abc1234").2.2
      [("name", .str "app"), ("image", .str "old:1")] [] rfl
  exact ⟨(migrate_first_entry_spec [] "repo:abc1234").1 rfl,
    (migrate_first_entry_spec [("containerDefinitions", .arr [])]
      "repo:abc1234").2.1 rfl, h1, h2⟩

/-- C2: whenever the migration script succeeds, none of the eight
provider-assigned metadata keys occurs in the output document. -/
theorem migrate_strips_metadata (td : JVal) (u : String) (out : JVal)
    (h : migrate td u = .ok out) :
    ∀ k ∈ metadataKeys, jvalLookup out k = none := by
  intro k hk
  obtain ⟨fields, cf, rest, htd, hcd, hout⟩ := migrate_ok_shape td u out h
  rw [hout]
  simp only [jvalLookup]
  exact alookup_popKeys_mem _ _ _ hk

/-- Witness for C2 at the Scenario A input: the `revision` key is gone
from the output. -/
theorem migrate_strips_metadata_witness :
    jvalLookup scenarioOut "revision" = none :=
  migrate_strips_metadata scenarioDoc "repo:abc1234" scenarioOut rfl
    "revision" (by decide)

/-- C3 (counterexample): on a two-container document whose second entry
already carries the new reference — with `app` a valid container name
matching the first entry — the migration script's output has two entries
whose image equals the new reference, not exactly one. -/
theorem migrate_exactly_one_image_cex :
    hasContainerNamed twoContainerDoc "app" = true
    ∧ (migrateImages twoContainerDoc "repo:abc1234").count
        (some "repo:abc1234") = 2 := by
  exact ⟨by decide, by decide⟩

/-- C3 (amended): on a document with a nonempty container list the
migration script preserves the number of container entries, rewrites
exactly the first entry — whose image becomes the new reference while
its other fields are untouched — leaves every other container entry
verbatim, and changes no top-level key other than
`containerDefinitions` and the stripped metadata keys. -/
theorem migrate_frame (fields cf : List (String × JVal)) (rest : List JVal)
    (u : String)
    (h : alookup fields "containerDefinitions" =
      some (.arr (.obj cf :: rest))) :
    ∃ out, migrate (.obj fields) u = .ok out
      ∧ containersOf out =
          some (.obj (setKey cf "image" (.str u)) :: rest)
      ∧ alookup (setKey cf "image" (.str u)) "image" = some (.str u)
      ∧ (∀ k, k ≠ "image" →
          alookup (setKey cf "image" (.str u)) k = alookup cf k)
      ∧ (∀ k, k ∉ metadataKeys → k ≠ "containerDefinitions" →
          jvalLookup out k = alookup fields k)
      ∧ (∀ k, k ∈ metadataKeys → jvalLookup out k = none) := by
  refine ⟨_, migrate_obj_ok fields cf rest u h, ?_, ?_, ?_, ?_, ?_⟩
  · simp only [containersOf, jvalLookup]
    rw [alookup_popKeys_not_mem _ _ _ containerDefinitions_not_metadata,
      alookup_setKey_self]
  · exact alookup_setKey_self cf "image" (.str u)
  · intro k hk
    exact alookup_setKey_ne cf "image" k (.str u) hk
  · intro k hk1 hk2
    simp only [jvalLookup]
    rw [alookup_popKeys_not_mem _ _ _ hk1,
      alookup_setKey_ne fields "containerDefinitions" k _ hk2]
  · intro k hk
    simp only [jvalLookup]
    exact alookup_popKeys_mem _ _ _ hk

/-- Witness for the amended C3 at the Scenario A input. -/
theorem migrate_frame_witness :
    containersOf scenarioOut =
      some [.obj [("name", .str "app"), ("image", .str "repo:abc1234")]]
    ∧ jvalLookup scenarioOut "taskDefinitionArn" = none := by
  obtain ⟨out, h1, h2, -, -, -, h6⟩ :=
    migrate_frame scenarioFields
      [("name", .str "app"), ("image", .str "old:1")] [] "repo:abc1234" rfl
  have hmig : migrate (.obj scenarioFields) "repo:abc1234" =
      Except.ok scenarioOut := rfl
  rw [hmig] at h1
  injection h1 with hout
  subst hout
  exact ⟨h2, h6 "taskDefinitionArn" (by decide)⟩

/-- C7: the migration script is idempotent on the image field — a second
run with the same new image succeeds, and the first container image of
its output equals the first container image after the first run. -/
theorem migrate_idempotent_image (td : JVal) (u : String) (out : JVal)
    (h : migrate td u = .ok out) :
    migrateOk out u = true
    ∧ migrateResultImage out u = firstContainerImageStr out := by
  obtain ⟨fields, cf, rest, htd, hcd, hout⟩ := migrate_ok_shape td u out h
  have hcd' : alookup
      (popKeys
        (setKey fields "containerDefinitions"
          (.arr (.obj (setKey cf "image" (.str u)) :: rest)))
        metadataKeys) "containerDefinitions" =
      some (.arr (.obj (setKey cf "image" (.str u)) :: rest)) := by
    rw [alookup_popKeys_not_mem _ _ _ containerDefinitions_not_metadata,
      alookup_setKey_self]
  have h2 := migrate_obj_ok _ _ _ u hcd'
  have hr : firstContainerImageStr out = some u :=
    migrate_ok_firstImage td u out h
  constructor
  · rw [hout]
    simp [migrateOk, h2]
  · rw [hout] at hr ⊢
    simp only [migrateResultImage, h2]
    rw [migrate_ok_firstImage _ u _ h2, hr]

/-- Witness for C7 at the Scenario A input. -/
theorem migrate_idempotent_image_witness :
    migrateOk scenarioOut "repo:abc1234" = true
    ∧ migrateResultImage scenarioOut "repo:abc1234" =
        firstContainerImageStr scenarioOut :=
  migrate_idempotent_image scenarioDoc "repo:abc1234" scenarioOut rfl

/-- C4: configuration resolution returns the mapping's entry for the
requested environment key when present, and falls back to the mapping's
`dev` entry — not an error — when the key is absent. -/
theorem resolveConfig_fallback (configs : List (String × EnvConfig))
    (envName : String) (devCfg : EnvConfig)
    (hdev : cfgLookup configs "dev" = some devCfg) :
    (∀ c, cfgLookup configs envName = some c →
      resolveConfig configs envName = .ok c)
    ∧ (cfgLookup configs envName = none →
      resolveConfig configs envName = .ok devCfg) := by
  constructor
  · intro c hc
    unfold resolveConfig
    rw [hdev, hc]
    rfl
  · intro hc
    unfold resolveConfig
    rw [hdev, hc]
    rfl

/-- A sample `dev` configuration entry. -/
def devConfig : EnvConfig :=
  ⟨"develop", "devops-app", "devops-app-service-dev",
   "devops-app-cluster-dev", 256, 512, 1, "development"⟩

/-- A sample `prod` configuration entry. -/
def prodConfig : EnvConfig :=
  ⟨"master", "devops-app", "devops-app-service-prod",
   "devops-app-cluster-prod", 512, 1024, 2, "production"⟩

/-- A sample environment mapping with `dev` and `prod` entries. -/
def sampleConfigs : List (String × EnvConfig) :=
  [("dev", devConfig), ("prod", prodConfig)]

/-- Witness for C4: a present key resolves to its own entry, an absent
key resolves to the `dev` entry. -/
theorem resolveConfig_fallback_witness :
    resolveConfig sampleConfigs "prod" = .ok prodConfig
    ∧ resolveConfig sampleConfigs "staging" = .ok devConfig :=
  ⟨(resolveConfig_fallback sampleConfigs "prod" devConfig rfl).1
      prodConfig (by decide),
   (resolveConfig_fallback sampleConfigs "staging" devConfig rfl).2
      (by decide)⟩

/-- C5: the deploy buildspec's command list drives the rollout sequencer
through exactly the trace Idle, Registering, Updating, WaitingForStable
and then the terminal Stable or Failed state, for either wait outcome:
register, update and wait occur strictly in that order with no overlap,
the run ends in a terminal state, and Idle is never re-entered (it
occurs exactly once, at the start). -/
theorem deploy_sequencer_order (ok : Bool) :
    seqTrace deployBuildCommands ok =
      [SeqState.idle, SeqState.registering, SeqState.updating,
       SeqState.waitingForStable, cond ok SeqState.stable SeqState.failed]
    ∧ (seqTrace deployBuildCommands ok).count SeqState.idle = 1
    ∧ (seqTrace deployBuildCommands ok).getLast? =
        some (cond ok SeqState.stable SeqState.failed) := by
  cases ok <;> exact ⟨rfl, rfl, rfl⟩

/-- C6: the written image-definitions manifest is a JSON array with
exactly one object, its keys are `name` and `imageUri`, and reading
either key back yields exactly the written value. -/
theorem manifest_roundtrip (n u : String) :
    manifestEntryCount (writeImageDefinitions n u) = 1
    ∧ manifestKeys (writeImageDefinitions n u) = some ["name", "imageUri"]
    ∧ readManifestName (writeImageDefinitions n u) = some n
    ∧ readManifestImageUri (writeImageDefinitions n u) = some u := by
  refine ⟨rfl, rfl, ?_, ?_⟩
  · simp [readManifestName, writeImageDefinitions, alookup]
  · simp [readManifestImageUri, writeImageDefinitions, alookup]

/-- C8 (counterexample): on the three-character resolved source version
`abc`, the computed image tag is `abc` — neither a seven-character short
hash nor the literal `latest`. -/
theorem imageTag_seven_char_cex :
    ¬((imageTag ("abc".toList)).length = 7
      ∨ imageTag ("abc".toList) = latestTag) := by decide

/-- C8 (amended): the image tag is the first `min 7 n` characters of the
resolved source version (of length `n`), falling back to the literal
`latest` exactly when the source version is empty; whenever the source
version has at least seven characters — as a full 40-character commit
hash does — the tag is the seven-character short hash, it differs from
`latest`, and the build pushes exactly one non-`latest` tag in addition
to the `latest` alias. -/
theorem imageTag_spec :
    imageTag [] = latestTag
    ∧ ∀ sv : List Char, 7 ≤ sv.length →
        imageTag sv = sv.take 7
        ∧ (imageTag sv).length = 7
        ∧ imageTag sv ≠ latestTag
        ∧ pushedTags sv = [sv.take 7, latestTag]
        ∧ (pushedTags sv).filter (fun t => !(t == latestTag)) =
            [sv.take 7] := by
  refine ⟨rfl, ?_⟩
  intro sv hsv
  have hne : sv ≠ [] := by
    intro h
    subst h
    simp at hsv
  have htag : imageTag sv = sv.take 7 := by simp [imageTag, hne]
  have hlen : (sv.take 7).length = 7 := by
    rw [List.length_take]
    exact Nat.min_eq_left hsv
  have hnl : sv.take 7 ≠ latestTag := by
    intro h
    have hlen6 := congrArg List.length h
    rw [hlen] at hlen6
    exact absurd hlen6 (by decide)
  refine ⟨htag, htag ▸ hlen, htag ▸ hnl, by simp [pushedTags, htag], ?_⟩
  simp only [pushedTags, htag, List.filter]
  rw [show (sv.take 7 == latestTag) = false from beq_eq_false_iff_ne.mpr hnl]
  simp

/-- A sample 40-character resolved source version (a full commit id). -/
def sampleCommitId : List Char :=
  "0123456789abcdef0123456789abcdef01234567".toList

/-- Witness for the amended C8 at a 40-character commit id. -/
theorem imageTag_spec_witness :
    imageTag sampleCommitId = sampleCommitId.take 7
    ∧ (imageTag sampleCommitId).length = 7
    ∧ imageTag sampleCommitId ≠ latestTag
    ∧ pushedTags sampleCommitId = [sampleCommitId.take 7, latestTag]
    ∧ (pushedTags sampleCommitId).filter (fun t => !(t == latestTag)) =
        [sampleCommitId.take 7] :=
  imageTag_spec.2 sampleCommitId (by decide)

/-- C9: the ALB security group receives the HTTP (TCP 80) ingress rule
in every environment, and the extra HTTPS (TCP 443) ingress rule in
exactly one environment, namely `prod`. -/
theorem albIngress_https_only_prod (envName : String) :
    (⟨"any_ipv4", 80, "Allow HTTP traffic"⟩ : IngressRule) ∈
      albIngressRules envName
    ∧ (((⟨"any_ipv4", 443, "Allow HTTPS traffic"⟩ : IngressRule) ∈
        albIngressRules envName) ↔ envName = "prod")
    ∧ ((∃ r ∈ albIngressRules envName, r.port = 443) ↔
        envName = "prod") := by
  by_cases h : envName = "prod"
  · subst h
    refine ⟨by decide, ?_, ?_⟩
    · exact iff_of_true (by decide) rfl
    · exact iff_of_true ⟨⟨"any_ipv4", 443, "Allow HTTPS traffic"⟩,
        by decide, rfl⟩ rfl
  · have hr : albIngressRules envName =
        [⟨"any_ipv4", 80, "Allow HTTP traffic"⟩] := by
      simp [albIngressRules, h]
    rw [hr]
    refine ⟨List.mem_singleton.mpr rfl, ?_, ?_⟩
    · refine iff_of_false ?_ h
      intro hmem
      have := List.mem_singleton.mp hmem
      exact absurd this (by decide)
    · refine iff_of_false ?_ h
      rintro ⟨r, hrm, hrp⟩
      rw [List.mem_singleton.mp hrm] at hrp
      exact absurd hrp (by decide)

/-- C10: for every resolved environment configuration, the autoscaling
minimum capacity equals the configured desired count and the maximum
capacity equals exactly three times the configured desired count. -/
theorem autoScale_bounds_spec (c : EnvConfig) :
    (autoScaleBounds c).1 = c.desired_count
    ∧ (autoScaleBounds c).2 = 3 * c.desired_count :=
  ⟨rfl, Nat.mul_comm c.desired_count 3⟩
